import Mathlib

/-!
Shallow embedding of the TutorEase course-section front end.

The page controller (src/unnamed/part_000) holds transient state
(formData, isLoading, results) and derives a templated learning path
record from the submitted topic and skill level via pure lookup tables
and string interpolation; the ResultsCard and ProgressBar components
(src/src/components/ResultsCard.tsx) add a second templating pass, a
static course catalog lookup, an export stub and a tick-driven progress
timer.  All of that is pure or event-driven, so it is embedded as plain
functions plus an explicit step relation over the timer state.
-/

/-- The space character, written with an escape so character literals stay
uniform throughout the file. -/
def spaceChar : Char := '\x20'

/-- JS `s.split(' ')` on a character list: split at every single space,
keeping empty segments, so that a run of two spaces yields an empty segment
between them, exactly as `"a  b".split(' ')` does.  The result is never
empty (splitting the empty string yields one empty segment). -/
def splitOnSpace : List Char → List (List Char)
  | [] => [[]]
  | c :: cs =>
    if c = spaceChar then [] :: splitOnSpace cs
    else (c :: (splitOnSpace cs).headD []) :: (splitOnSpace cs).tail

/-- JS `topic.split(' ')[0]`: the first space-separated segment of a string. -/
def firstSpaceWord (s : String) : String :=
  String.mk ((splitOnSpace s.data).headD [])

/-- The record returned by `generateFakeData` in the page controller. -/
structure ResultData where
  topic : String
  skillLevel : String
  learningPath : List String
  projects : List String
  resources : List String
  careerOpportunities : List String
  deriving DecidableEq, Repr

/-- The `learningPathMap` object literal of `generateFakeData`: a fixed
three-entry table from topic to its ordered phase list, `none` when the
topic is not a key.  (The embedding reads the object literal as the finite
map of its own three keys.) -/
def learningPathMap (topic : String) : Option (List String) :=
  if topic = "Web Development" then some
    ["1. HTML & CSS Fundamentals - Create responsive layouts",
     "2. JavaScript Basics - Learn syntax and core concepts",
     "3. Frontend Frameworks - Choose React, Angular, or Vue",
     "4. Backend Development - Node.js and Express",
     "5. Database Integration - SQL and NoSQL options",
     "6. API Design - RESTful and GraphQL approaches",
     "7. Deployment & DevOps - CI/CD pipelines"]
  else if topic = "Data Science" then some
    ["1. Programming Basics - Python and libraries",
     "2. Statistics Fundamentals - Probability and inference",
     "3. Data Manipulation - Pandas and data cleaning",
     "4. Data Visualization - Matplotlib and Seaborn",
     "5. Machine Learning Basics - Scikit-learn",
     "6. Deep Learning - TensorFlow or PyTorch",
     "7. Data Science Projects - Portfolio building"]
  else if topic = "Machine Learning" then some
    ["1. Mathematics Fundamentals - Linear algebra and calculus",
     "2. Statistical Modeling - Probability distributions",
     "3. ML Algorithms - Classification, regression, clustering",
     "4. Feature Engineering - Selection and transformation",
     "5. Model Evaluation - Metrics and validation",
     "6. Deep Learning - Neural networks and architectures",
     "7. MLOps - Deployment and monitoring"]
  else none

/-- The generic fallback phase list used when `learningPathMap` misses
(the `||` right operand in the source). -/
def defaultLearningPath : List String :=
  ["1. Fundamentals - Core concepts and principles",
   "2. Programming Skills - Required languages and tools",
   "3. Specialized Knowledge - Domain-specific techniques",
   "4. Advanced Topics - Deeper understanding of complex areas",
   "5. Project Work - Applied learning through creation",
   "6. Industry Standards - Best practices and workflows",
   "7. Continuous Learning - Keeping up with developments"]

/-- The `beginner` entry of the `projectsByLevel` object literal, also the
fallback when the skill level is not a key (`projectsByLevel.beginner`). -/
def beginnerProjects : List String :=
  ["Personal portfolio website",
   "Simple calculator application",
   "To-do list manager",
   "Weather forecast app"]

/-- The `projectsByLevel` object literal of `generateFakeData`: a fixed
three-entry table from skill level to its 4-entry project list. -/
def projectsByLevel (skillLevel : String) : Option (List String) :=
  if skillLevel = "beginner" then some beginnerProjects
  else if skillLevel = "intermediate" then some
    ["E-commerce platform with payment integration",
     "Social media dashboard with analytics",
     "Content management system",
     "Real-time chat application"]
  else if skillLevel = "advanced" then some
    ["AI-powered recommendation system",
     "Blockchain-based decentralized application",
     "Cloud-native microservices architecture",
     "Computer vision object detection system"]
  else none

/-- `generateFakeData` from the page controller: derives the full result
record from the topic and the skill level by table lookup (with `||`
fallbacks) and string interpolation. -/
def generateFakeData (topic skillLevel : String) : ResultData :=
  { topic := topic
    skillLevel := skillLevel
    learningPath := (learningPathMap topic).getD defaultLearningPath
    projects := (projectsByLevel skillLevel).getD beginnerProjects
    resources :=
      ["Udemy - Comprehensive video courses for practical skills",
       "Coursera - University-backed learning programs",
       "freeCodeCamp - Free interactive coding challenges",
       "GitHub repositories with example projects",
       "Stack Overflow - Community support for problems",
       "O\x27Reilly books on " ++ topic]
    careerOpportunities :=
      [firstSpaceWord topic ++ " Developer at tech companies",
       "Freelance consultant for small businesses",
       "Technical lead at startups",
       "Senior specialist at enterprise organizations",
       "Technical educator or course creator"] }

/-- The intake triple submitted by the course form. -/
structure FormData where
  topic : String
  skillLevel : String
  aiEnhanced : Bool
  deriving DecidableEq, Repr

/-- The page controller state: `formData`, `isLoading` and `results`
(`useState` hooks of the Index component). -/
structure SessionState where
  formData : Option FormData
  isLoading : Bool
  results : Option ResultData
  deriving DecidableEq, Repr

/-- The initial controller state: all three hooks at their initializers. -/
def initialSession : SessionState :=
  { formData := none, isLoading := false, results := none }

/-- `handleFormSubmit` of the page controller: stores the intake, enters
loading, discards any previous result. -/
def handleFormSubmit (s : SessionState) (d : FormData) : SessionState :=
  { s with formData := some d, isLoading := true, results := none }

/-- `CourseForm.handleSubmit`: the guard `if (!topic || !skillLevel) return`
rejects an empty topic or skill level without invoking `onSubmit`
(= `handleFormSubmit`); otherwise the intake triple is published. -/
def handleSubmit (s : SessionState) (topic skillLevel : String)
    (aiEnhanced : Bool) : SessionState :=
  if topic = "" ∨ skillLevel = "" then s
  else handleFormSubmit s
    { topic := topic, skillLevel := skillLevel, aiEnhanced := aiEnhanced }

/-- `handleLoadingComplete` of the page controller: with no stored intake it
returns early; otherwise it derives the result from the stored topic and
skill level and leaves loading. -/
def handleLoadingComplete (s : SessionState) : SessionState :=
  match s.formData with
  | none => s
  | some fd =>
      { s with isLoading := false
               results := some (generateFakeData fd.topic fd.skillLevel) }

/-- The spec's workflow phase, read off the controller state. -/
inductive Phase where
  | Idle
  | AwaitingResult
  | Ready
  deriving DecidableEq, Repr

/-- Phase projection: loading means awaiting, a present result means ready,
otherwise idle. -/
def SessionState.phase (s : SessionState) : Phase :=
  if s.isLoading then Phase.AwaitingResult
  else if s.results.isSome then Phase.Ready
  else Phase.Idle

/-- The observable state of one ProgressBar stage entry: the `progress`
percentage, whether the 30ms interval is still installed (`timerActive`),
whether the 500ms completion `setTimeout` has been scheduled and not yet
fired (`pendingTimeout`), and how many times `onComplete` has been invoked
(`completeCount`). -/
structure PBState where
  progress : ℚ
  timerActive : Bool
  pendingTimeout : Bool
  completeCount : ℕ
  deriving DecidableEq, Repr

/-- The events that can reach the ProgressBar effect: an interval tick, the
grace-delay timeout firing, and the effect cleanup (component teardown /
effect re-run), which runs `clearInterval(timer)` only. -/
inductive PBEvent where
  | tick
  | fireTimeout
  | cleanup
  deriving DecidableEq, Repr

/-- The per-tick increment `100 / (duration / interval)` with
`duration = 3000` and `interval = 30`. -/
def pbIncrement : ℚ := 100 / (3000 / 30)

/-- State entered when the effect runs with `isLoading` true:
`setProgress(0)` and a fresh interval. -/
def pbInit : PBState :=
  { progress := 0, timerActive := true, pendingTimeout := false
    completeCount := 0 }

/-- One event step of the ProgressBar effect.  A tick adds the increment;
on reaching or exceeding 100 it clears the interval, schedules the 500ms
completion timeout and clamps the progress to 100.  The timeout firing
invokes `onComplete` once and clears the pending flag.  The cleanup clears
the interval only — the scheduled completion timeout is not cancelled,
exactly as in the source. -/
def pbStep (s : PBState) : PBEvent → PBState
  | PBEvent.tick =>
    if s.timerActive then
      if 100 ≤ s.progress + pbIncrement then
        { s with progress := 100, timerActive := false
                 pendingTimeout := true }
      else { s with progress := s.progress + pbIncrement }
    else s
  | PBEvent.fireTimeout =>
    if s.pendingTimeout then
      { s with pendingTimeout := false
               completeCount := s.completeCount + 1 }
    else s
  | PBEvent.cleanup => { s with timerActive := false }

/-- Run the ProgressBar effect over a sequence of events. -/
def pbRun (s : PBState) (es : List PBEvent) : PBState :=
  es.foldl pbStep s

/-- One interval tick. -/
def pbTick (s : PBState) : PBState := pbStep s PBEvent.tick

/-- The state after `n` interval ticks from a fresh stage entry. -/
def tickIter (n : ℕ) : PBState := pbTick^[n] pbInit

/-- One catalog row of the `mockCourses` list in ResultsCard. -/
structure Course where
  id : String
  title : String
  rating : ℚ
  difficulty : String
  deriving DecidableEq, Repr

/-- The fixed five-entry course catalog. -/
def mockCourses : List Course :=
  [{ id := "132", title := "Web Development With Rust", rating := 5.0
     difficulty := "Beginner" },
   { id := "396"
     title := "Web Design For Everybody: Basics Of Web Development & Coding"
     rating := 4.8, difficulty := "Beginner" },
   { id := "1606", title := "Introduction To Web Development", rating := 4.7
     difficulty := "Beginner" },
   { id := "605"
     title := "Backend Web Development With Go: Build An E-Manual Server"
     rating := 4.8, difficulty := "Beginner" },
   { id := "196", title := "JavaScript Essentials for Modern Web Development"
     rating := 4.7, difficulty := "Beginner" }]

/-- The detail record stored in `courseDetails` by `handleCourseIdSubmit`. -/
structure CourseDetails where
  id : String
  title : String
  instructor : String
  difficulty : String
  rating : ℚ
  skills : List String
  description : String
  deriving DecidableEq, Repr

/-- `handleCourseIdSubmit` of ResultsCard: the guard `if (!courseId) return`
rejects the empty id without producing a record; otherwise an exact-id
search over `mockCourses` yields either a detail record with a fixed
synthetic instructor, fixed skills and a fixed description, or the
"Custom Course" placeholder echoing the given id. -/
def handleCourseIdSubmit (courseId : String) : Option CourseDetails :=
  if courseId = "" then none
  else
    match mockCourses.find? (fun c => c.id == courseId) with
    | some course => some
        { id := course.id, title := course.title
          instructor := "Dr. Jane Smith", difficulty := course.difficulty
          rating := course.rating
          skills := ["Programming", "Web Technologies", "System Design"]
          description := "Cutting-edge course exploring the latest trends and techniques in web development, tailored for beginner learners." }
    | none => some
        { id := courseId, title := "Custom Course"
          instructor := "Various Instructors", difficulty := "Self-paced"
          rating := 4.5
          skills := ["Programming", "Web Technologies"]
          description := "A personalized course tailored to your learning objectives and skill level." }

/-- One node of the roadmap tree built by `transformLearningPath`: the
object literals `{ text, color, description?, subItems? }`, with an absent
description read as `none` and absent sub-items as `[]`. -/
inductive RItem where
  | node (text : String) (color : String) (description : Option String)
      (subItems : List RItem)

/-- The `text` field of a roadmap node. -/
def RItem.text : RItem → String
  | node t _ _ _ => t

/-- One row of the projects table built by `transformProjects`. -/
structure ProjectRow where
  name : String
  description : String
  complexity : String
  time : String
  deriving DecidableEq, Repr

/-- `transformLearningPath` of ResultsCard: the second, independent
templating pass over `data.topic` and `data.skillLevel`, always producing
the same three top-level phases with their nested sub-item trees. -/
def transformLearningPath (topic skillLevel : String) : List RItem :=
  [RItem.node ("Foundations of " ++ topic ++ " (" ++ skillLevel ++ ") - 4-6 weeks")
    "green-400"
    (some ("Build core knowledge and fundamental skills in " ++ topic ++ ". Focus on understanding basic principles and becoming familiar with essential tools."))
    [RItem.node "Key Concepts:" "cyan-400" none
      [RItem.node (topic ++ " basics") "white" none [],
       RItem.node "Core principles" "white" none [],
       RItem.node "Fundamental tools and techniques" "white" none []],
     RItem.node "Milestones:" "pink-400" none
      [RItem.node ("Complete first " ++ topic ++ " exercise") "white" none [],
       RItem.node ("Build simple " ++ topic ++ " project") "white" none []],
     RItem.node "Practice Activities:" "cyan-400" none
      [RItem.node ("Daily " ++ topic ++ " exercises") "white" none [],
       RItem.node "Follow beginner tutorials" "white" none []]],
   RItem.node (topic ++ " Skill Development (Intermediate) - 8-12 weeks")
    "green-400"
    (some ("Deepen understanding of " ++ topic ++ " and apply more advanced concepts. Focus on building practical skills through hands-on projects and implementation."))
    [RItem.node "Key Concepts:" "cyan-400" none
      [RItem.node ("Advanced " ++ topic ++ " techniques") "white" none [],
       RItem.node "Applied projects" "white" none [],
       RItem.node "Specialized tools" "white" none []],
     RItem.node "Milestones:" "pink-400" none
      [RItem.node ("Complete medium complexity " ++ topic ++ " project") "white" none [],
       RItem.node "Solve real-world problems" "white" none []],
     RItem.node "Practice Activities:" "cyan-400" none
      [RItem.node "Implement sample projects" "white" none [],
       RItem.node "Participate in forums/discussions" "white" none []]],
   RItem.node (topic ++ " Mastery & Specialization (Advanced) - 12-16 weeks")
    "green-400"
    (some ("Develop expert-level skills in " ++ topic ++ " with focus on real-world application. Specialize in specific areas and build a professional portfolio."))
    [RItem.node "Key Concepts:" "cyan-400" none
      [RItem.node "Industry best practices" "white" none [],
       RItem.node "Specialized frameworks" "white" none [],
       RItem.node "Performance optimization" "white" none []]]]

/-- `transformProjects` of ResultsCard: the second templating pass for the
projects table.  It closes over the same `data` record as
`transformLearningPath`, but reads only `data.topic`; the `skillLevel`
argument is never consulted, exactly as in the source. -/
def transformProjects (topic skillLevel : String) : List ProjectRow :=
  [{ name := "Beginner Project: " ++ topic ++ " Fundamentals Application"
     description := "Apply basic " ++ topic ++ " concepts in a simple project to practice fundamentals and gain confidence."
     complexity := "Low", time := "1-2 weeks" },
   { name := "Intermediate Project: Interactive " ++ topic ++ " Application"
     description := "Create a more complex application using intermediate " ++ topic ++ " skills with greater functionality and sophistication."
     complexity := "Medium", time := "3-4 weeks" },
   { name := "Capstone Project: Advanced " ++ topic ++ " Implementation"
     description := "Apply all learned skills in a comprehensive " ++ topic ++ " project that showcases mastery and solves a real-world problem."
     complexity := "High", time := "6-8 weeks" }]

/-- The ASCII whitespace class of the JS regex `\s` (the source topics never
reach the non-ASCII members, which this embedding omits). -/
def isWs (c : Char) : Bool :=
  c = spaceChar || c = '\t' || c = '\n' || c = '\r' || c = '\x0b' || c = '\x0c'

/-- The scanner behind JS `s.replace(/\s+/g, '_')`: each maximal run of
whitespace characters becomes a single underscore.  The flag records whether
the previous character was part of a whitespace run. -/
def collapseWsAux : Bool → List Char → List Char
  | _, [] => []
  | prevWs, c :: cs =>
    if isWs c then
      if prevWs then collapseWsAux true cs
      else '_' :: collapseWsAux true cs
    else c :: collapseWsAux false cs

/-- JS `s.replace(/\s+/g, '_')`. -/
def replaceWsRuns (s : String) : String :=
  String.mk (collapseWsAux false s.data)

/-- The observable outcome of `handleExportPDF`: the simulated delay before
the download, the data-URL payload after the comma (empty), and the value
of the `download` attribute. -/
structure ExportAction where
  delayMs : ℕ
  payload : String
  filename : String
  deriving DecidableEq, Repr

/-- `handleExportPDF` of ResultsCard: after a 1000ms `setTimeout`, click a
synthetic anchor whose href is `data:text/plain;charset=utf-8,` (empty
payload) and whose download name is the topic with whitespace runs replaced
by underscores, suffixed `_roadmap.pdf`. -/
def handleExportPDF (topic : String) : ExportAction :=
  { delayMs := 1000, payload := ""
    filename := replaceWsRuns topic ++ "_roadmap.pdf" }

/-- Modelled from the spec words of §4.5 for the refinement comparison in
claim C9: "the topic with spaces replaced by underscores followed by
`_roadmap.pdf`" — every individual space character becomes one
underscore. -/
def specExportName (topic : String) : String :=
  String.mk (topic.data.map (fun c => if c = spaceChar then '_' else c))
    ++ "_roadmap.pdf"

/-- Claim C1: for every topic and skill level the derivation is
deterministic, and the result published by the controller is independent of
the `aiEnhanced` flag — two submissions that agree on topic and skill level
but differ in the flag (and in prior controller state) publish structurally
identical results, namely `generateFakeData topic skillLevel`. -/
theorem result_independent_of_aiEnhanced (t sl : String) (a₁ a₂ : Bool)
    (s₁ s₂ : SessionState) :
    generateFakeData t sl = generateFakeData t sl ∧
    (handleLoadingComplete (handleFormSubmit s₁ ⟨t, sl, a₁⟩)).results =
      (handleLoadingComplete (handleFormSubmit s₂ ⟨t, sl, a₂⟩)).results ∧
    (handleLoadingComplete (handleFormSubmit s₁ ⟨t, sl, a₁⟩)).results =
      some (generateFakeData t sl) := by
  refine ⟨rfl, ?_, ?_⟩ <;> rfl

/-- Claim C4: submitting with an empty topic or an empty skill level is a
rejected no-op — the controller state (hence formData, results and the
derived phase) is unchanged. -/
theorem submit_empty_rejected (s : SessionState) (t sl : String) (a : Bool)
    (h : t = "" ∨ sl = "") :
    handleSubmit s t sl a = s ∧
    (handleSubmit s t sl a).phase = s.phase ∧
    (handleSubmit s t sl a).formData = s.formData ∧
    (handleSubmit s t sl a).results = s.results := by
  have hs : handleSubmit s t sl a = s := by
    unfold handleSubmit; rw [if_pos h]
  exact ⟨hs, by rw [hs], by rw [hs], by rw [hs]⟩

/-- Witness for C4: both spec examples, from the idle initial state, leave
the phase at Idle. -/
theorem submit_empty_rejected_witness :
    handleSubmit initialSession "" "beginner" false = initialSession ∧
    (handleSubmit initialSession "Web Development" "" false).phase = Phase.Idle ∧
    initialSession.phase = Phase.Idle := by
  refine ⟨(submit_empty_rejected initialSession "" "beginner" false
    (Or.inl rfl)).1, ?_, by decide⟩
  have h := (submit_empty_rejected initialSession "Web Development" "" false
    (Or.inr rfl)).2.1
  rw [h]; decide

/-- Claim C5: the learning path equals the matching entry of the fixed
three-key table when the topic is one of its keys, and the fixed generic
7-phase fallback for every other topic; every returned list has length 7. -/
theorem learningPath_lookup (topic skillLevel : String) :
    (generateFakeData "Web Development" skillLevel).learningPath =
      ["1. HTML & CSS Fundamentals - Create responsive layouts",
       "2. JavaScript Basics - Learn syntax and core concepts",
       "3. Frontend Frameworks - Choose React, Angular, or Vue",
       "4. Backend Development - Node.js and Express",
       "5. Database Integration - SQL and NoSQL options",
       "6. API Design - RESTful and GraphQL approaches",
       "7. Deployment & DevOps - CI/CD pipelines"] ∧
    (generateFakeData "Data Science" skillLevel).learningPath =
      ["1. Programming Basics - Python and libraries",
       "2. Statistics Fundamentals - Probability and inference",
       "3. Data Manipulation - Pandas and data cleaning",
       "4. Data Visualization - Matplotlib and Seaborn",
       "5. Machine Learning Basics - Scikit-learn",
       "6. Deep Learning - TensorFlow or PyTorch",
       "7. Data Science Projects - Portfolio building"] ∧
    (generateFakeData "Machine Learning" skillLevel).learningPath =
      ["1. Mathematics Fundamentals - Linear algebra and calculus",
       "2. Statistical Modeling - Probability distributions",
       "3. ML Algorithms - Classification, regression, clustering",
       "4. Feature Engineering - Selection and transformation",
       "5. Model Evaluation - Metrics and validation",
       "6. Deep Learning - Neural networks and architectures",
       "7. MLOps - Deployment and monitoring"] ∧
    (topic ≠ "Web Development" → topic ≠ "Data Science" →
      topic ≠ "Machine Learning" →
      (generateFakeData topic skillLevel).learningPath =
        ["1. Fundamentals - Core concepts and principles",
         "2. Programming Skills - Required languages and tools",
         "3. Specialized Knowledge - Domain-specific techniques",
         "4. Advanced Topics - Deeper understanding of complex areas",
         "5. Project Work - Applied learning through creation",
         "6. Industry Standards - Best practices and workflows",
         "7. Continuous Learning - Keeping up with developments"]) ∧
    (generateFakeData topic skillLevel).learningPath.length = 7 := by
  refine ⟨rfl, rfl, rfl, ?_, ?_⟩
  · intro h₁ h₂ h₃
    simp [generateFakeData, learningPathMap, h₁, h₂, h₃, defaultLearningPath]
  · show ((learningPathMap topic).getD defaultLearningPath).length = 7
    unfold learningPathMap
    split_ifs <;> rfl

/-- Witness for C5: an unknown topic receives the generic fallback list. -/
theorem learningPath_lookup_witness :
    (generateFakeData "History" "beginner").learningPath =
      ["1. Fundamentals - Core concepts and principles",
       "2. Programming Skills - Required languages and tools",
       "3. Specialized Knowledge - Domain-specific techniques",
       "4. Advanced Topics - Deeper understanding of complex areas",
       "5. Project Work - Applied learning through creation",
       "6. Industry Standards - Best practices and workflows",
       "7. Continuous Learning - Keeping up with developments"] :=
  (learningPath_lookup "History" "beginner").2.2.2.1
    (by decide) (by decide) (by decide)

/-- Claim C6: the projects equal the fixed 4-entry list keyed by the skill
level for the three known levels, and the beginner list for every other
value; in particular the unknown pair ("Quantum Computing", "expert")
yields the generic 7-phase roadmap and the beginner project list. -/
theorem projects_lookup (topic skillLevel : String) :
    (generateFakeData topic "beginner").projects =
      ["Personal portfolio website",
       "Simple calculator application",
       "To-do list manager",
       "Weather forecast app"] ∧
    (generateFakeData topic "intermediate").projects =
      ["E-commerce platform with payment integration",
       "Social media dashboard with analytics",
       "Content management system",
       "Real-time chat application"] ∧
    (generateFakeData topic "advanced").projects =
      ["AI-powered recommendation system",
       "Blockchain-based decentralized application",
       "Cloud-native microservices architecture",
       "Computer vision object detection system"] ∧
    (skillLevel ≠ "beginner" → skillLevel ≠ "intermediate" →
      skillLevel ≠ "advanced" →
      (generateFakeData topic skillLevel).projects =
        ["Personal portfolio website",
         "Simple calculator application",
         "To-do list manager",
         "Weather forecast app"]) ∧
    (generateFakeData "Quantum Computing" "expert").learningPath =
      ["1. Fundamentals - Core concepts and principles",
       "2. Programming Skills - Required languages and tools",
       "3. Specialized Knowledge - Domain-specific techniques",
       "4. Advanced Topics - Deeper understanding of complex areas",
       "5. Project Work - Applied learning through creation",
       "6. Industry Standards - Best practices and workflows",
       "7. Continuous Learning - Keeping up with developments"] ∧
    (generateFakeData "Quantum Computing" "expert").projects =
      ["Personal portfolio website",
       "Simple calculator application",
       "To-do list manager",
       "Weather forecast app"] ∧
    (generateFakeData topic skillLevel).projects.length = 4 := by
  refine ⟨rfl, rfl, rfl, ?_, by decide, by decide, ?_⟩
  · intro h₁ h₂ h₃
    simp [generateFakeData, projectsByLevel, h₁, h₂, h₃, beginnerProjects]
  · show ((projectsByLevel skillLevel).getD beginnerProjects).length = 4
    unfold projectsByLevel
    split_ifs <;> rfl

/-- Witness for C6: an unknown skill level receives the beginner list. -/
theorem projects_lookup_witness :
    (generateFakeData "Web Development" "expert").projects =
      ["Personal portfolio website",
       "Simple calculator application",
       "To-do list manager",
       "Weather forecast app"] :=
  (projects_lookup "Web Development" "expert").2.2.2.1
    (by decide) (by decide) (by decide)

/-- The per-tick increment evaluates to exactly 1 percent. -/
theorem pbIncrement_eq : pbIncrement = 1 := by norm_num [pbIncrement]

/-- After `n ≤ 99` ticks the progress is exactly `n` percent, the interval
is still installed, no completion timeout is scheduled and the callback has
not fired. -/
theorem tickIter_of_le (n : ℕ) (hn : n ≤ 99) :
    tickIter n = { progress := n, timerActive := true, pendingTimeout := false
                   completeCount := 0 } := by
  induction n with
  | zero => simp [tickIter, pbInit]
  | succ k ih =>
    have hk : k ≤ 99 := Nat.le_of_succ_le hn
    have hk98 : k ≤ 98 := by omega
    rw [tickIter, Function.iterate_succ_apply']
    have hiter : pbTick^[k] pbInit = tickIter k := rfl
    rw [hiter, ih hk]
    have hlt : ¬ (100 : ℚ) ≤ (k : ℚ) + pbIncrement := by
      rw [pbIncrement_eq, not_le]
      have hq : (k : ℚ) ≤ 98 := by exact_mod_cast hk98
      linarith
    simp only [pbTick, pbStep, if_pos rfl, if_neg hlt]
    simp [Nat.cast_succ, pbIncrement_eq]

/-- The 100th tick reaches 100, clamps, clears the interval and schedules
the completion timeout; the callback has not yet fired. -/
theorem tickIter_hundred :
    tickIter 100 = { progress := 100, timerActive := false
                     pendingTimeout := true, completeCount := 0 } := by
  rw [show (100 : ℕ) = 99 + 1 from rfl, tickIter,
    Function.iterate_succ_apply']
  have hiter : pbTick^[99] pbInit = tickIter 99 := rfl
  rw [hiter, tickIter_of_le 99 (by norm_num)]
  have hge : (100 : ℚ) ≤ 99 + pbIncrement := by
    rw [pbIncrement_eq]; norm_num
  simp [pbTick, pbStep, hge]

/-- Additional ticks after the clamping tick change nothing: the interval
has been cleared. -/
theorem tickIter_of_ge (n : ℕ) (hn : 100 ≤ n) :
    tickIter n = { progress := 100, timerActive := false
                   pendingTimeout := true, completeCount := 0 } := by
  induction n, hn using Nat.le_induction with
  | base => exact tickIter_hundred
  | succ n hn ih =>
    rw [tickIter, Function.iterate_succ_apply']
    have hiter : pbTick^[n] pbInit = tickIter n := rfl
    rw [hiter, ih]
    simp [pbTick, pbStep]

/-- A state with the interval cleared and no pending completion timeout is
fixed by every event. -/
theorem pbStep_inactive (s : PBState) (h1 : s.timerActive = false)
    (h2 : s.pendingTimeout = false) (e : PBEvent) : pbStep s e = s := by
  cases e with
  | tick => simp [pbStep, h1]
  | fireTimeout => simp [pbStep, h2]
  | cleanup =>
    show ({ s with timerActive := false } : PBState) = s
    rw [← h1]

/-- A state with the interval cleared and no pending completion timeout is
fixed by every event sequence. -/
theorem pbRun_inactive (s : PBState) (es : List PBEvent)
    (h1 : s.timerActive = false) (h2 : s.pendingTimeout = false) :
    pbRun s es = s := by
  induction es with
  | nil => rfl
  | cons e es ih =>
    show pbRun (pbStep s e) es = s
    rw [pbStep_inactive s h1 h2 e]
    exact ih

/-- Running `n` ticks as an event list is iterating the tick step. -/
theorem pbRun_replicate_tick (n : ℕ) :
    ∀ s : PBState, pbRun s (List.replicate n PBEvent.tick) = pbTick^[n] s := by
  induction n with
  | zero => intro s; rfl
  | succ k ih =>
    intro s
    rw [List.replicate_succ]
    show pbRun (pbStep s PBEvent.tick) (List.replicate k PBEvent.tick) = _
    rw [ih, Function.iterate_succ_apply]
    rfl

/-- Claim C2: from stage entry the percentage starts at 0 and rises by the
fixed linear increment `100 / (3000 / 30)` per tick; the tick that reaches
100 clamps to exactly 100 and clears the interval; firing the grace timeout
then invokes the completion callback exactly once, with the percentage
exactly 100 immediately prior, and no later event can invoke it again. -/
theorem progress_runs_to_single_completion :
    pbInit.progress = 0 ∧
    pbIncrement = 100 / (3000 / 30) ∧
    (∀ n : ℕ, n ≤ 99 → (tickIter n).progress = n * pbIncrement ∧
      (tickIter n).timerActive = true ∧ (tickIter n).completeCount = 0) ∧
    tickIter 100 = { progress := 100, timerActive := false
                     pendingTimeout := true, completeCount := 0 } ∧
    (∀ n : ℕ, 100 ≤ n →
      tickIter n = { progress := 100, timerActive := false
                     pendingTimeout := true, completeCount := 0 }) ∧
    pbStep (tickIter 100) PBEvent.fireTimeout =
      { progress := 100, timerActive := false, pendingTimeout := false
        completeCount := 1 } ∧
    (∀ es : List PBEvent,
      (pbRun (pbStep (tickIter 100) PBEvent.fireTimeout) es).completeCount
        = 1) := by
  have hfire : pbStep (tickIter 100) PBEvent.fireTimeout =
      { progress := 100, timerActive := false, pendingTimeout := false
        completeCount := 1 } := by
    rw [tickIter_hundred]; simp [pbStep]
  refine ⟨rfl, rfl, ?_, tickIter_hundred, tickIter_of_ge, hfire, ?_⟩
  · intro n hn
    rw [tickIter_of_le n hn, pbIncrement_eq]
    exact ⟨by push_cast; ring, rfl, rfl⟩
  · intro es
    rw [hfire, pbRun_inactive _ es rfl rfl]

/-- Witness for C2: after 42 ticks the percentage is 42 increments, and the
completion count stays exactly 1 under further tick, timeout and cleanup
events after the callback fired. -/
theorem progress_runs_to_single_completion_witness :
    (tickIter 42).progress = 42 * pbIncrement ∧
    (pbRun (pbStep (tickIter 100) PBEvent.fireTimeout)
      [PBEvent.tick, PBEvent.fireTimeout, PBEvent.cleanup]).completeCount
      = 1 := by
  obtain ⟨-, -, h3, -, -, -, h7⟩ := progress_runs_to_single_completion
  exact ⟨(h3 42 (by norm_num)).1, h7 _⟩

/-- Counterexample to C3: run the stage to the clamping tick (100 ticks),
then exit the stage (the effect cleanup runs `clearInterval` only), then
let the already-scheduled 500ms grace timeout elapse — the completion
callback still fires, so an exit after the percentage reached 100 but
before the grace delay does not prevent the callback. -/
theorem cleanup_after_clamp_still_completes :
    (pbRun pbInit (List.replicate 100 PBEvent.tick ++
      [PBEvent.cleanup, PBEvent.fireTimeout])).completeCount = 1 := by
  unfold pbRun
  rw [List.foldl_append]
  have h1 : List.foldl pbStep pbInit (List.replicate 100 PBEvent.tick) =
      tickIter 100 := pbRun_replicate_tick 100 pbInit
  rw [h1, tickIter_hundred]
  rfl

/-- Claim C3 as amended: an early exit while no completion timeout is
pending (in particular any exit before the percentage reached 100) cancels
the timer, after which no event sequence changes the state or invokes the
completion callback; the unamended cancellation guarantee fails once the
grace timeout has been scheduled. -/
theorem cleanup_before_clamp_cancels (s : PBState) (es : List PBEvent)
    (h : s.pendingTimeout = false) :
    pbRun (pbStep s PBEvent.cleanup) es = pbStep s PBEvent.cleanup ∧
    (pbRun (pbStep s PBEvent.cleanup) es).completeCount = s.completeCount := by
  have hrun : pbRun (pbStep s PBEvent.cleanup) es = pbStep s PBEvent.cleanup :=
    pbRun_inactive _ es rfl h
  exact ⟨hrun, by rw [hrun]; rfl⟩

/-- Witness for the amended C3: exiting a freshly entered stage, then
delivering a stray tick and timeout, never fires the callback. -/
theorem cleanup_before_clamp_cancels_witness :
    (pbRun (pbStep pbInit PBEvent.cleanup)
      [PBEvent.tick, PBEvent.fireTimeout]).completeCount =
      pbInit.completeCount :=
  (cleanup_before_clamp_cancels pbInit
    [PBEvent.tick, PBEvent.fireTimeout] rfl).2

/-- Counterexample to C7: the claim says every phase and every project has
both topic and skillLevel interpolated, but changing only the skill level
leaves the second phase heading and the entire projects table unchanged —
`transformProjects` never reads the skill level and only the first phase
heading mentions it. -/
theorem transforms_ignore_skillLevel :
    transformProjects "Web Development" "beginner" =
      transformProjects "Web Development" "advanced" ∧
    ((transformLearningPath "Web Development" "beginner").map
      RItem.text).get? 1 =
    ((transformLearningPath "Web Development" "advanced").map
      RItem.text).get? 1 ∧
    ((transformLearningPath "Web Development" "beginner").map
      RItem.text).get? 2 =
    ((transformLearningPath "Web Development" "advanced").map
      RItem.text).get? 2 := by
  refine ⟨rfl, rfl, rfl⟩

/-- Claim C7 as amended: the second templating pass always generates
exactly 3 phases titled around Foundations, Skill Development, and
Mastery & Specialization and exactly 3 projects (Beginner / Intermediate /
Capstone) with complexity tiers Low / Medium / High and fixed duration
ranges; the topic is interpolated into every phase heading and every
project, while the skill level is interpolated only into the first phase
heading — the other phases and the projects do not depend on it. -/
theorem transforms_shape (topic skillLevel : String) :
    (transformLearningPath topic skillLevel).map RItem.text =
      ["Foundations of " ++ topic ++ " (" ++ skillLevel ++ ") - 4-6 weeks",
       topic ++ " Skill Development (Intermediate) - 8-12 weeks",
       topic ++ " Mastery & Specialization (Advanced) - 12-16 weeks"] ∧
    (transformProjects topic skillLevel).map ProjectRow.name =
      ["Beginner Project: " ++ topic ++ " Fundamentals Application",
       "Intermediate Project: Interactive " ++ topic ++ " Application",
       "Capstone Project: Advanced " ++ topic ++ " Implementation"] ∧
    (transformProjects topic skillLevel).map ProjectRow.complexity =
      ["Low", "Medium", "High"] ∧
    (transformProjects topic skillLevel).map ProjectRow.time =
      ["1-2 weeks", "3-4 weeks", "6-8 weeks"] ∧
    (transformLearningPath topic skillLevel).length = 3 ∧
    (transformProjects topic skillLevel).length = 3 ∧
    transformProjects topic skillLevel = transformProjects topic "beginner" := by
  exact ⟨rfl, rfl, rfl, rfl, rfl, rfl, rfl⟩

/-- Counterexample to C8: the claim quantifies over every id string, but the
guard `if (!courseId) return` rejects the empty id without producing any
record — `lookup("")` yields neither a catalog detail nor a placeholder. -/
theorem lookup_empty_id_rejected : handleCourseIdSubmit "" = none := rfl

/-- Claim C8 as amended: for every non-empty id the lookup succeeds — a
catalog id returns a detail record carrying the matched entry's id, title,
rating and difficulty together with the fixed synthetic instructor, fixed
skills and a fixed description; any other non-empty id returns the
"Custom Course" placeholder echoing the id.  The empty id is the one
rejected input. -/
theorem courseLookup_total (courseId : String) (h : courseId ≠ "") :
    (courseId = "132" → handleCourseIdSubmit courseId = some
      { id := "132", title := "Web Development With Rust"
        instructor := "Dr. Jane Smith", difficulty := "Beginner"
        rating := 5.0
        skills := ["Programming", "Web Technologies", "System Design"]
        description := "Cutting-edge course exploring the latest trends and techniques in web development, tailored for beginner learners." }) ∧
    (courseId = "396" → handleCourseIdSubmit courseId = some
      { id := "396"
        title := "Web Design For Everybody: Basics Of Web Development & Coding"
        instructor := "Dr. Jane Smith", difficulty := "Beginner"
        rating := 4.8
        skills := ["Programming", "Web Technologies", "System Design"]
        description := "Cutting-edge course exploring the latest trends and techniques in web development, tailored for beginner learners." }) ∧
    (courseId = "1606" → handleCourseIdSubmit courseId = some
      { id := "1606", title := "Introduction To Web Development"
        instructor := "Dr. Jane Smith", difficulty := "Beginner"
        rating := 4.7
        skills := ["Programming", "Web Technologies", "System Design"]
        description := "Cutting-edge course exploring the latest trends and techniques in web development, tailored for beginner learners." }) ∧
    (courseId = "605" → handleCourseIdSubmit courseId = some
      { id := "605"
        title := "Backend Web Development With Go: Build An E-Manual Server"
        instructor := "Dr. Jane Smith", difficulty := "Beginner"
        rating := 4.8
        skills := ["Programming", "Web Technologies", "System Design"]
        description := "Cutting-edge course exploring the latest trends and techniques in web development, tailored for beginner learners." }) ∧
    (courseId = "196" → handleCourseIdSubmit courseId = some
      { id := "196", title := "JavaScript Essentials for Modern Web Development"
        instructor := "Dr. Jane Smith", difficulty := "Beginner"
        rating := 4.7
        skills := ["Programming", "Web Technologies", "System Design"]
        description := "Cutting-edge course exploring the latest trends and techniques in web development, tailored for beginner learners." }) ∧
    (courseId ∉ (["132", "396", "1606", "605", "196"] : List String) →
      handleCourseIdSubmit courseId = some
        { id := courseId, title := "Custom Course"
          instructor := "Various Instructors", difficulty := "Self-paced"
          rating := 4.5, skills := ["Programming", "Web Technologies"]
          description := "A personalized course tailored to your learning objectives and skill level." }) ∧
    (∃ d, handleCourseIdSubmit courseId = some d ∧ d.id = courseId) := by
  have hplaceholder :
      courseId ∉ (["132", "396", "1606", "605", "196"] : List String) →
      handleCourseIdSubmit courseId = some
        { id := courseId, title := "Custom Course"
          instructor := "Various Instructors", difficulty := "Self-paced"
          rating := 4.5, skills := ["Programming", "Web Technologies"]
          description := "A personalized course tailored to your learning objectives and skill level." } := by
    intro hmem
    simp only [List.mem_cons, List.not_mem_nil, or_false, not_or] at hmem
    obtain ⟨h1, h2, h3, h4, h5⟩ := hmem
    have hfind : mockCourses.find? (fun c => c.id == courseId) = none := by
      rw [List.find?_eq_none]
      intro c hc
      simp only [mockCourses, List.mem_cons, List.not_mem_nil, or_false] at hc
      rcases hc with hc | hc | hc | hc | hc <;> subst hc <;>
        first
        | exact fun he => h1 (beq_iff_eq.mp he).symm
        | exact fun he => h2 (beq_iff_eq.mp he).symm
        | exact fun he => h3 (beq_iff_eq.mp he).symm
        | exact fun he => h4 (beq_iff_eq.mp he).symm
        | exact fun he => h5 (beq_iff_eq.mp he).symm
    unfold handleCourseIdSubmit
    rw [if_neg h, hfind]
  refine ⟨?_, ?_, ?_, ?_, ?_, hplaceholder, ?_⟩
  · intro he; subst he; rfl
  · intro he; subst he; rfl
  · intro he; subst he; rfl
  · intro he; subst he; rfl
  · intro he; subst he; rfl
  · by_cases hm : courseId ∈ (["132", "396", "1606", "605", "196"] : List String)
    · simp only [List.mem_cons, List.not_mem_nil, or_false] at hm
      rcases hm with hm | hm | hm | hm | hm <;> subst hm <;> exact ⟨_, rfl, rfl⟩
    · exact ⟨_, hplaceholder hm, rfl⟩

/-- Witness for the amended C8: the two spec examples — a catalog id echoes
its id, an unknown id receives the "Custom Course" placeholder. -/
theorem courseLookup_total_witness :
    (∃ d, handleCourseIdSubmit "132" = some d ∧ d.id = "132") ∧
    handleCourseIdSubmit "999999" = some
      { id := "999999", title := "Custom Course"
        instructor := "Various Instructors", difficulty := "Self-paced"
        rating := 4.5, skills := ["Programming", "Web Technologies"]
        description := "A personalized course tailored to your learning objectives and skill level." } := by
  refine ⟨(courseLookup_total "132" (by decide)).2.2.2.2.2.2, ?_⟩
  exact (courseLookup_total "999999" (by decide)).2.2.2.2.2.1 (by decide)


/-- Every character produced by the whitespace-run scanner is
non-whitespace: runs are replaced by underscores and other characters are
kept as they are. -/
theorem collapseWsAux_no_ws (cs : List Char) :
    ∀ (b : Bool), ∀ c ∈ collapseWsAux b cs, isWs c = false := by
  induction cs with
  | nil => intro b c hc; simp [collapseWsAux] at hc
  | cons d ds ih =>
    intro b c hc
    simp only [collapseWsAux] at hc
    split_ifs at hc with hws hprev
    · exact ih true c hc
    · rcases List.mem_cons.mp hc with h | h
      · subst h; decide
      · exact ih true c h
    · rcases List.mem_cons.mp hc with h | h
      · subst h; simpa using hws
      · exact ih false c h

/-- No two adjacent characters of the list are both whitespace. -/
def noAdjacentWs : List Char → Bool
  | [] => true
  | [_] => true
  | a :: b :: rest => (!(isWs a) || !(isWs b)) && noAdjacentWs (b :: rest)

/-- On inputs whose whitespace is only single, non-adjacent spaces, the
run-collapsing scanner agrees with replacing each space by one
underscore. -/
theorem collapseWsAux_eq_map (cs : List Char)
    (honly : ∀ c ∈ cs, isWs c = true → c = spaceChar)
    (hchain : noAdjacentWs cs = true) :
    collapseWsAux false cs =
      cs.map (fun c => if c = spaceChar then '_' else c) ∧
    (isWs (cs.headD 'x') = false →
      collapseWsAux true cs =
        cs.map (fun c => if c = spaceChar then '_' else c)) := by
  induction cs with
  | nil => exact ⟨rfl, fun _ => rfl⟩
  | cons d ds ih =>
    have honly' : ∀ c ∈ ds, isWs c = true → c = spaceChar :=
      fun c hc => honly c (List.mem_cons_of_mem d hc)
    have hchain' : noAdjacentWs ds = true := by
      cases ds with
      | nil => rfl
      | cons e es =>
        simp only [noAdjacentWs, Bool.and_eq_true] at hchain
        exact hchain.2
    obtain ⟨ih1, ih2⟩ := ih honly' hchain'
    by_cases hd : isWs d = true
    · have hdsp : d = spaceChar := honly d (List.mem_cons_self d ds) hd
      subst hdsp
      have hheadds : isWs (ds.headD 'x') = false := by
        cases ds with
        | nil => decide
        | cons e es =>
          simp only [noAdjacentWs, Bool.and_eq_true, Bool.or_eq_true,
            Bool.not_eq_true'] at hchain
          rw [List.headD_cons]
          rcases hchain.1 with h | h
          · rw [hd] at h; cases h
          · exact h
      have h2 := ih2 hheadds
      have hsp : isWs spaceChar = true := by decide
      constructor
      · simp [collapseWsAux, hsp, h2]
      · intro hhead
        rw [List.headD_cons, hsp] at hhead
        cases hhead
    · have hd' : isWs d = false := by simpa using hd
      have hdne : d ≠ spaceChar := by
        intro he; rw [he] at hd'; exact absurd hd' (by decide)
      refine ⟨?_, fun _ => ?_⟩
      · simp [collapseWsAux, hd', ih1, hdne]
      · simp [collapseWsAux, hd', ih1, hdne]

/-- Counterexample to C9: on a topic with two consecutive spaces the
download name collapses the run to a single underscore, while the claim's
reading (each space replaced by an underscore) predicts two. -/
theorem export_name_counterexample :
    (handleExportPDF "a  b").filename = "a_b_roadmap.pdf" ∧
    specExportName "a  b" = "a__b_roadmap.pdf" ∧
    (handleExportPDF "a  b").filename ≠ specExportName "a  b" := by
  refine ⟨by decide, by decide, by decide⟩

/-- Claim C9 as amended: for every topic the export is an empty payload
delivered after a fixed 1000-time-unit delay under a name obtained from the
topic by replacing each maximal run of whitespace with a single underscore,
suffixed `_roadmap.pdf`; the name never contains whitespace, and on topics
whose whitespace is only single, non-adjacent spaces it coincides with the
claim's space-for-underscore reading. -/
theorem export_fixed_shape (topic : String) :
    handleExportPDF topic =
      { delayMs := 1000, payload := ""
        filename := replaceWsRuns topic ++ "_roadmap.pdf" } ∧
    (∀ c ∈ (handleExportPDF topic).filename.data, isWs c = false) ∧
    ((∀ c ∈ topic.data, isWs c = true → c = spaceChar) →
      noAdjacentWs topic.data = true →
      (handleExportPDF topic).filename = specExportName topic) := by
  refine ⟨rfl, ?_, ?_⟩
  · intro c hc
    have hdata : (handleExportPDF topic).filename.data =
        collapseWsAux false topic.data ++ "_roadmap.pdf".data := rfl
    rw [hdata] at hc
    rcases List.mem_append.mp hc with h | h
    · exact collapseWsAux_no_ws topic.data false c h
    · have hconst : ∀ x ∈ "_roadmap.pdf".data, isWs x = false := by decide
      exact hconst c h
  · intro honly hchain
    have hmap := (collapseWsAux_eq_map topic.data honly hchain).1
    show String.mk (collapseWsAux false topic.data) ++ "_roadmap.pdf" =
      String.mk (topic.data.map (fun c => if c = spaceChar then '_' else c))
        ++ "_roadmap.pdf"
    rw [hmap]

/-- Witness for the amended C9: a single-spaced topic gets the expected
underscored name, matching the per-space reading as well. -/
theorem export_fixed_shape_witness :
    (handleExportPDF "Web Development").filename =
      specExportName "Web Development" ∧
    (handleExportPDF "Web Development").filename =
      "Web_Development_roadmap.pdf" := by
  refine ⟨(export_fixed_shape "Web Development").2.2 (by decide) (by decide),
    by decide⟩

/-- For a list containing a space, the first segment of the space-split
contains no space and is the proper prefix of the list up to the first
space. -/
theorem splitOnSpace_head (cs : List Char) (h : spaceChar ∈ cs) :
    (∀ c ∈ (splitOnSpace cs).headD [], c ≠ spaceChar) ∧
    ∃ rest : List Char,
      cs = (splitOnSpace cs).headD [] ++ spaceChar :: rest := by
  induction cs with
  | nil => cases h
  | cons d ds ih =>
    by_cases hd : d = spaceChar
    · subst hd
      constructor
      · simp [splitOnSpace]
      · refine ⟨ds, ?_⟩
        simp [splitOnSpace]
    · have hmem : spaceChar ∈ ds := by
        rcases List.mem_cons.mp h with h1 | h1
        · exact absurd h1.symm hd
        · exact h1
      obtain ⟨ih1, rest, ihEq⟩ := ih hmem
      constructor
      · intro c hc
        simp only [splitOnSpace, if_neg hd, List.headD_cons] at hc
        rcases List.mem_cons.mp hc with h1 | h1
        · subst h1; exact hd
        · exact ih1 c h1
      · refine ⟨rest, ?_⟩
        simp only [splitOnSpace, if_neg hd, List.headD_cons,
          List.cons_append]
        rw [← ihEq]

/-- Claim C10: for every topic containing a space, the career list has
exactly 5 entries, only the first of which depends on the topic, and that
first entry interpolates only the first space-separated word of the topic
(which contains no space and is followed in the topic by a space). -/
theorem career_first_entry (topic skillLevel : String)
    (h : spaceChar ∈ topic.data) :
    (generateFakeData topic skillLevel).careerOpportunities =
      [firstSpaceWord topic ++ " Developer at tech companies",
       "Freelance consultant for small businesses",
       "Technical lead at startups",
       "Senior specialist at enterprise organizations",
       "Technical educator or course creator"] ∧
    (generateFakeData topic skillLevel).careerOpportunities.length = 5 ∧
    (∀ c ∈ (firstSpaceWord topic).data, c ≠ spaceChar) ∧
    (∃ rest : List Char,
      topic.data = (firstSpaceWord topic).data ++ spaceChar :: rest) := by
  obtain ⟨h1, rest, h2⟩ := splitOnSpace_head topic.data h
  exact ⟨rfl, rfl, h1, ⟨rest, h2⟩⟩

/-- Witness for C10: for the topic "Web Development" the first career entry
reads "Web Developer at tech companies" — only the first word is
interpolated. -/
theorem career_first_entry_witness :
    spaceChar ∈ "Web Development".data ∧
    (generateFakeData "Web Development" "beginner").careerOpportunities.headD
      "" = "Web Developer at tech companies" := by
  refine ⟨by decide, ?_⟩
  rw [(career_first_entry "Web Development" "beginner" (by decide)).1]
  decide
